import Mathlib

/-!
# Teamsbot: the bot variant (optimized_free_bot.js) and the relay variant (webhook_teams_bot.js)

A shallow embedding of the two request handlers and of the functions they call.

* JavaScript strings are Lean strings (sequences of Unicode scalar values); strings holding
  lone surrogates are outside the model.
* Values that arrive from JSON (request bodies, the body of the vendor's answer) are `JSValue`s.
* Every `await` on the outside world (the vendor call, the webhook call, the adapter's
  `sendActivity`) takes its outcome from an environment record. Each such call site runs at most
  once per request, so one outcome per call site describes every possible behaviour of the world.
* A handler is a value of `Run`: the effects it performed, in order, and how it completed.
* Where the outcome of a conversion depends on the engine (how deep its call stack lets
  `Array.prototype.join` and `JSON.stringify` recurse), the limit is a parameter.
-/

namespace Teamsbot

/-! ## JavaScript values -/

/-- A JavaScript value that can come out of `JSON.parse`, or `undefined`. A number is kept as
the decimal text `Number.prototype.toString` prints for it (`-0` prints as `0`). The fields of an
object are its own properties; a property name occurs once. -/
inductive JSValue where
  | undefined
  | null
  | bool (b : Bool)
  | number (repr : String)
  | string (s : String)
  | array (elems : List JSValue)
  | object (fields : List (String × JSValue))

/-- A thrown JavaScript error: its `message`, and `response.data` when the error is an HTTP error
raised by axios (`undefined` otherwise). -/
structure JSError where
  message : String
  responseData : JSValue

/-- The property names the two programs read from values that came from outside. -/
inductive PropKey where
  | message
  | content
  | index0
  | text

/-- The JavaScript spelling of a property name. -/
def PropKey.name : PropKey → String
  | .message => "message"
  | .content => "content"
  | .index0 => "0"
  | .text => "text"

namespace JSValue

/-- ToBoolean. -/
def truthy : JSValue → Bool
  | .undefined => false
  | .null => false
  | .bool b => b
  | .number r => !(r == "0" || r == "NaN")
  | .string s => !(s == "")
  | .array _ => true
  | .object _ => true

/-- Whether a value is `undefined` or `null`. -/
def isNullish : JSValue → Bool
  | .undefined => true
  | .null => true
  | _ => false

/-- An own property of an object, `undefined` when there is none. -/
def lookup (fields : List (String × JSValue)) (key : String) : JSValue :=
  match fields.find? (fun f => f.1 == key) with
  | some f => f.2
  | none => .undefined

/-- The TypeError V8 raises when a property of `undefined` or `null` is read. -/
def readError (v : JSValue) (k : PropKey) : JSError :=
  ⟨"Cannot read properties of " ++ (match v with | .null => "null" | _ => "undefined")
      ++ " (reading \x27" ++ k.name ++ "\x27)", .undefined⟩

/-- Property read `v[k]` for the property names of `PropKey`. Reading from `undefined` or `null`
throws; none of the four names is inherited from a prototype, so every other receiver answers
from its own properties. A string answers index 0 with its first character (for a character
outside the BMP JavaScript answers with half of it, which is again a string). -/
def get (v : JSValue) (k : PropKey) : Except JSError JSValue :=
  match v with
  | .undefined => .error (readError v k)
  | .null => .error (readError v k)
  | .bool _ => .ok .undefined
  | .number _ => .ok .undefined
  | .string s =>
    match k, s.data with
    | .index0, c :: _ => .ok (.string (String.singleton c))
    | _, _ => .ok .undefined
  | .array elems =>
    match k, elems with
    | .index0, e :: _ => .ok e
    | _, _ => .ok .undefined
  | .object fields => .ok (lookup fields k.name)

/-- The TypeError raised when an object cannot be converted to a primitive value. -/
def convertError : JSError := ⟨"Cannot convert object to primitive value", .undefined⟩

/-- The RangeError raised when the call stack is used up. -/
def stackError : JSError := ⟨"Maximum call stack size exceeded", .undefined⟩

/-- The texts of the elements with commas between them. -/
def joinTexts : List String → String
  | [] => ""
  | [a] => a
  | a :: b :: rest => a ++ "," ++ joinTexts (b :: rest)

/-- The results of a list of conversions: the texts when all succeeded, else the first error
from the left. -/
def collect : List (Except JSError String) → Except JSError (List String)
  | [] => .ok []
  | .error e :: _ => .error e
  | .ok a :: rest =>
    match collect rest with
    | .ok texts => .ok (a :: texts)
    | .error e => .error e

/-- ToString, as a template literal applies it, on a call stack that admits `depth` nested
calls of `Array.prototype.join`. A primitive value converts whatever the stack. An object whose
own property `toString` is not callable (no JSON value is callable) cannot be converted; any
other object prints through `Object.prototype.toString`. An array prints through `join`, one
call deeper for each level of nesting, where `undefined` and `null` elements print as the empty
string; when the nesting is deeper than the stack admits the conversion throws a RangeError. -/
def toStr : Nat → JSValue → Except JSError String
  | _, .undefined => .ok "undefined"
  | _, .null => .ok "null"
  | _, .bool b => .ok (if b then "true" else "false")
  | _, .number r => .ok r
  | _, .string s => .ok s
  | _, .object fields =>
    if fields.any (fun f => f.1 == "toString") then .error convertError
    else .ok "[object Object]"
  | 0, .array _ => .error stackError
  | depth + 1, .array elems =>
    match collect (elems.map (fun e => if isNullish e then .ok "" else toStr depth e)) with
    | .ok texts => .ok (joinTexts texts)
    | .error e => .error e

/-- Whether a value is a primitive: neither an array nor an object. -/
def isPrimitive : JSValue → Bool
  | .array _ => false
  | .object _ => false
  | _ => true

/-- Whether `JSON.stringify` can write a value when its recursion may go `depth` levels into
arrays and objects; beyond that it throws a RangeError. A primitive is always written. -/
def serialisable : Nat → JSValue → Bool
  | _, .undefined => true
  | _, .null => true
  | _, .bool _ => true
  | _, .number _ => true
  | _, .string _ => true
  | 0, .array _ => false
  | 0, .object _ => false
  | depth + 1, .array elems => elems.all (fun e => serialisable depth e)
  | depth + 1, .object fields => fields.all (fun f => serialisable depth f.2)

end JSValue

/-! ## Strings -/

/-- Whether `pat` occurs in the character list, starting at some position. -/
def includesList : List Char → List Char → Bool
  | [], pat => pat.isEmpty
  | c :: cs, pat => pat.isPrefixOf (c :: cs) || includesList cs pat

/-- The method `String.prototype.includes`. -/
def includes (s pat : String) : Bool := includesList s.data pat.data

/-- WhiteSpace and LineTerminator code points, the characters `String.prototype.trim` removes. -/
def isWhiteSpace (c : Char) : Bool :=
  decide (c.toNat ∈ [0x9, 0xA, 0xB, 0xC, 0xD, 0x20, 0xA0, 0x1680, 0x2028, 0x2029, 0x202F,
    0x205F, 0x3000, 0xFEFF]) || (decide (0x2000 ≤ c.toNat) && decide (c.toNat ≤ 0x200A))

/-- The method `String.prototype.trim`. -/
def trim (s : String) : String :=
  ⟨((s.data.dropWhile isWhiteSpace).reverse.dropWhile isWhiteSpace).reverse⟩

/-- Lower-casing of one character of the Basic Latin and Latin-1 blocks. -/
def lowerLatin1 (c : Char) : Char :=
  if (65 ≤ c.toNat ∧ c.toNat ≤ 90) ∨ (192 ≤ c.toNat ∧ c.toNat ≤ 214) ∨
      (216 ≤ c.toNat ∧ c.toNat ≤ 222) then Char.ofNat (c.toNat + 32) else c

/-- The method `String.prototype.toLowerCase` on strings of characters below U+0100. Characters
above are left as they are, so this function stands for the JavaScript one only on Latin-1
text. The functions below take the lower-casing function as an argument, and what is proved of
them for every such function holds of the JavaScript one. -/
def toLowerCaseLatin1 (s : String) : String := ⟨s.data.map lowerLatin1⟩

/-! ## Effects and runs -/

/-- What a handler does to the outside world. `log` is the bot's `log` helper (the time stamp
it prints first is left out), `console` is a call of `console.log` or `console.error` with a
label and one value, `claudePost` is the `axios.post` to the vendor's endpoint
`https://api.anthropic.com/v1/messages` with the request body `data` (headers and time-out left
out), `webhookPost` is the `axios.post` to the webhook, `respond` is the HTTP answer written
through `res`. -/
inductive Effect where
  | log (text : String)
  | console (label : String) (detail : JSValue)
  | sendActivity (activity : JSValue)
  | next
  | claudePost (data : JSValue)
  | webhookPost (url : String) (payload : JSValue)
  | respond (status : Nat) (body : JSValue)

/-- The run of an asynchronous function: the effects performed, in order, and the value it
resolved with or the error it rejected with. -/
structure Run (α : Type) where
  trace : List Effect
  result : Except JSError α

namespace Run

/-- Completes at once with a value. -/
def ret {α : Type} (a : α) : Run α := ⟨[], .ok a⟩

/-- Sequencing: the second part runs only when the first did not throw. -/
def andThen {α β : Type} (r : Run α) (f : α → Run β) : Run β :=
  match r.result with
  | .ok a => ⟨r.trace ++ (f a).trace, (f a).result⟩
  | .error e => ⟨r.trace, .error e⟩

/-- The statement `try ... catch (error) ...`. -/
def tryCatch {α : Type} (body : Run α) (handler : JSError → Run α) : Run α :=
  match body.result with
  | .ok a => ⟨body.trace, .ok a⟩
  | .error e => ⟨body.trace ++ (handler e).trace, (handler e).result⟩

/-- Performs one effect that cannot fail. -/
def emit (e : Effect) : Run Unit := ⟨[e], .ok ()⟩

/-- Performs one effect and awaits the answer of the outside world. -/
def await {α : Type} (e : Effect) (outcome : Except JSError α) : Run α := ⟨[e], outcome⟩

/-- A synchronous computation that may throw. -/
def lift {α : Type} (x : Except JSError α) : Run α := ⟨[], x⟩

end Run

instance : Monad Run where
  pure := Run.ret
  bind := Run.andThen

/-- Whether an environment variable is set to a non-empty string (its truthiness). -/
def configured : Option String → Bool
  | none => false
  | some s => !(s == "")

/-- The request body both variants post to the vendor: model, token bound and the message as
the only user turn. -/
def claudeRequest (message : JSValue) : JSValue :=
  .object [("model", .string "claude-3-sonnet-20240229"), ("max_tokens", .number "500"),
    ("messages", .array [.object [("role", .string "user"), ("content", message)]])]

/-- The expression `response.data.content[0].text`, given `response.data`. -/
def firstText (data : JSValue) : Except JSError JSValue := do
  let content ← data.get .content
  let first ← content.get .index0
  first.get .text

/-! ## The bot variant: optimized_free_bot.js -/

namespace Bot

/-- Canned reply of the greeting group. -/
def greetingReply : String := "Hallo! Wie kann ich Ihnen helfen?"

/-- Canned reply of the well-being group. -/
def wellBeingReply : String := "Mir geht es gut, danke! Ich bin bereit, Ihnen zu helfen."

/-- Canned reply of the help group. -/
def helpReply : String :=
  "Ich kann Ihnen bei verschiedenen Aufgaben helfen:\n• Fragen beantworten\n• Texte schreiben\n• Probleme lösen\n• Und vieles mehr!"

/-- Canned reply of the identity group. -/
def identityReply : String :=
  "Ich bin ein KI-Bot, der Ihnen bei verschiedenen Aufgaben helfen kann. Stellen Sie mir einfach eine Frage!"

/-- The generic reply, which quotes the message. -/
def genericReply (message : String) : String :=
  "Ich habe Ihre Nachricht erhalten: \"" ++ message ++
    "\"\n\nLeider ist die KI-API momentan nicht verfügbar. Bitte versuchen Sie es später erneut oder kontaktieren Sie den Administrator."

/-- The method `getSimpleResponse`; `toLowerCase` is `String.prototype.toLowerCase`. -/
def getSimpleResponse (toLowerCase : String → String) (message : String) : String :=
  let lowerMessage := toLowerCase message
  if includes lowerMessage "hallo" || includes lowerMessage "hi" then
    greetingReply
  else if includes lowerMessage "wie geht" || includes lowerMessage "wie läuft" then
    wellBeingReply
  else if includes lowerMessage "hilfe" || includes lowerMessage "help" then
    helpReply
  else if includes lowerMessage "wer bist du" || includes lowerMessage "was bist du" then
    identityReply
  else
    genericReply message

/-- What the outside world answers during one turn: the vendor's answer to the POST
(`response.data` of a 2xx answer, or the error axios rejects with on a network error, a
time-out or a non-2xx status), and the adapter's answer at each of the four `sendActivity` call
sites of `onMessage`. -/
structure TurnEnv where
  claude : Except JSError JSValue
  promptSend : Except JSError Unit
  typingSend : Except JSError Unit
  replySend : Except JSError Unit
  apologySend : Except JSError Unit

/-- The prompt sent when the activity carries no text. -/
def promptText : String := "Bitte senden Sie eine Textnachricht."

/-- The message sent when answering failed. -/
def apologyText : String :=
  "Entschuldigung, ich konnte keine Antwort generieren. Bitte versuchen Sie es später erneut."

/-- The typing indicator activity. -/
def typingActivity : JSValue := .object [("type", .string "typing")]

/-- The method `callClaudeAPI`: one POST, then `response.data.content[0].text`. Nothing is
caught here. -/
def callClaudeAPI (env : TurnEnv) (message : String) : Run JSValue := do
  let data ← Run.await (.claudePost (claudeRequest (.string message))) env.claude
  Run.lift (firstText data)

/-- The method `getAIResponse`: with a credential the vendor is tried first; when that throws,
the error is logged and control falls through to the keyword replies. -/
def getAIResponse (toLowerCase : String → String) (CLAUDE_API_KEY : Option String)
    (env : TurnEnv) (message : String) : Run JSValue :=
  if configured CLAUDE_API_KEY then
    Run.tryCatch (callClaudeAPI env message) (fun error => do
      Run.emit (.log ("Claude API Fehler: " ++ error.message))
      pure (.string (getSimpleResponse toLowerCase message)))
  else
    pure (.string (getSimpleResponse toLowerCase message))

/-- The handler registered with `onMessage`, for an activity whose `text` is `text` (`none`
when the activity has no text). `next()` has no further handler to run on this bot and
completes. -/
def onMessage (toLowerCase : String → String) (CLAUDE_API_KEY : Option String)
    (env : TurnEnv) (text : Option String) : Run Unit :=
  let userMessage := (text.map trim).getD ""
  if userMessage = "" then do
    Run.await (.sendActivity (.string promptText)) env.promptSend
    Run.emit .next
  else do
    Run.emit (.log ("Nachricht erhalten: " ++ userMessage))
    Run.tryCatch (Run.await (.sendActivity typingActivity) env.typingSend) (fun typingError =>
      Run.emit (.log ("Typing-Indikator Fehler: " ++ typingError.message)))
    Run.tryCatch (do
        let response ← getAIResponse toLowerCase CLAUDE_API_KEY env userMessage
        Run.await (.sendActivity response) env.replySend
        Run.emit (.log "Antwort gesendet"))
      (fun error => do
        Run.emit (.log ("AI-Antwort Fehler: " ++ error.message))
        Run.await (.sendActivity (.string apologyText)) env.apologySend)
    Run.emit .next

end Bot

/-! ## The relay variant: webhook_teams_bot.js -/

namespace Relay

/-- The two environment variables read at start-up. The credential only goes into a header of
the vendor request; the relay never tests it before calling. -/
structure Config where
  CLAUDE_API_KEY : Option String
  TEAMS_WEBHOOK_URL : Option String

/-- What the outside world answers during one request: the vendor's answer to the POST and the
webhook's answer to the POST. -/
structure RequestEnv where
  claude : Except JSError JSValue
  webhook : Except JSError Unit

/-- The string returned when the vendor call failed. -/
def failureText : String := "Entschuldigung, ich konnte keine Antwort generieren."

/-- The value of `error.response?.data || error.message`. -/
def errorDetail (error : JSError) : JSValue :=
  if error.responseData.truthy then error.responseData else .string error.message

/-- The function `callClaudeAPI`: the POST and the reading of `response.data.content[0].text`
stand inside one `try`; whatever is thrown there is logged and replaced by `failureText`. -/
def callClaudeAPI (env : RequestEnv) (message : JSValue) : Run JSValue :=
  Run.tryCatch (do
      let data ← Run.await (.claudePost (claudeRequest message)) env.claude
      Run.lift (firstText data))
    (fun error => do
      Run.emit (.console "Claude API Fehler:" (errorDetail error))
      pure (.string failureText))

/-- The MessageCard posted to the webhook. -/
def messageCard (message : String) : JSValue :=
  .object [("@type", .string "MessageCard"), ("@context", .string "https://schema.org/extensions"),
    ("summary", .string "Claude Bot Antwort"), ("themeColor", .string "0078D4"),
    ("sections", .array [.object [("activityTitle", .string "🤖 Claude Bot"),
      ("activitySubtitle", .string "AI Assistent"),
      ("activityImage", .string "https://cdn-icons-png.flaticon.com/512/4712/4712027.png"),
      ("text", .string message), ("markdown", .bool true)]])]

/-- The function `sendToTeams`. -/
def sendToTeams (cfg : Config) (env : RequestEnv) (message : String) : Run Unit :=
  match cfg.TEAMS_WEBHOOK_URL with
  | none => Run.emit (.console "Teams Webhook URL nicht konfiguriert" .undefined)
  | some url =>
    if url = "" then Run.emit (.console "Teams Webhook URL nicht konfiguriert" .undefined)
    else
      Run.tryCatch (do
          Run.await (.webhookPost url (messageCard message)) env.webhook
          Run.emit (.console "Nachricht an Teams gesendet" .undefined))
        (fun error => Run.emit (.console "Teams Webhook Fehler:" (errorDetail error)))

/-- The limits of the JavaScript engine that runs the handler: how many nested calls of
`Array.prototype.join` its call stack admits inside the template literal of `send`, and how
many levels of the generated value `JSON.stringify` can descend into when `res.json` writes the
answer. Both depend on the engine and its settings; what is proved below holds for every
value of them. -/
structure Engine where
  joinDepth : Nat
  stringifyDepth : Nat

/-- The conversion a template literal applies to an interpolated value. -/
def templateString (engine : Engine) (v : JSValue) : Except JSError String :=
  v.toStr engine.joinDepth

/-- The object answered on completion. In the JSON written by `res.json` a property whose value
is `undefined` is left out. -/
def successBody (claudeResponse : JSValue) : JSValue :=
  .object [("success", .bool true),
    ("message", .string "Nachricht erfolgreich an Teams gesendet"),
    ("response", claudeResponse)]

/-- The handler of `POST /send`, for the parsed request body `req.body`. `res.json` serialises
its argument with `JSON.stringify` before anything is written, and throws when that throws. The
error object printed by the outer `catch` is recorded by its message. -/
def send (engine : Engine) (cfg : Config) (env : RequestEnv) (body : JSValue) : Run Unit :=
  Run.tryCatch (do
      let message ← Run.lift (body.get .message)
      if !message.truthy then
        Run.emit (.respond 400 (.object [("error", .string "Nachricht ist erforderlich")]))
      else do
        Run.emit (.console "Nachricht erhalten:" message)
        let claudeResponse ← callClaudeAPI env message
        let question ← Run.lift (templateString engine message)
        let answer ← Run.lift (templateString engine claudeResponse)
        let teamsMessage := "**Frage:** " ++ question ++ "\n\n**Claude:** " ++ answer
        sendToTeams cfg env teamsMessage
        if claudeResponse.serialisable engine.stringifyDepth then
          Run.emit (.respond 200 (successBody claudeResponse))
        else
          Run.lift (.error JSValue.stackError))
    (fun error => do
      Run.emit (.console "Fehler:" (.string error.message))
      Run.emit (.respond 500 (.object [("error", .string "Interner Serverfehler")])))

end Relay

/-! ## What is observed of a run -/

/-- The arguments of the `sendActivity` calls of a trace, in order. -/
def sentActivities (trace : List Effect) : List JSValue :=
  trace.filterMap (fun e => match e with | .sendActivity a => some a | _ => none)

/-- The request bodies posted to the vendor, in order. -/
def claudePosts (trace : List Effect) : List JSValue :=
  trace.filterMap (fun e => match e with | .claudePost d => some d | _ => none)

/-- The webhook posts of a trace: address and payload, in order. -/
def webhookPosts (trace : List Effect) : List (String × JSValue) :=
  trace.filterMap (fun e => match e with | .webhookPost u p => some (u, p) | _ => none)

/-- The HTTP answers written, in order: status and JSON body. -/
def responses (trace : List Effect) : List (Nat × JSValue) :=
  trace.filterMap (fun e => match e with | .respond st b => some (st, b) | _ => none)

/-- The lines written through the bot's `log`, in order. -/
def logged (trace : List Effect) : List String :=
  trace.filterMap (fun e => match e with | .log t => some t | _ => none)

/-- How often `next()` was called. -/
def nextCalls (trace : List Effect) : Nat :=
  trace.countP (fun e => match e with | .next => true | _ => false)

/-- What the Response Generator hands back: the value read from `response.data.content[0].text`
when the vendor answered 2xx and the read did not throw, the fallback otherwise. -/
def generatedOr (claude : Except JSError JSValue) (fallback : JSValue) : JSValue :=
  match claude with
  | .error _ => fallback
  | .ok data =>
    match firstText data with
    | .ok v => v
    | .error _ => fallback

/-- Own property of an object value, `undefined` for any other value. -/
def JSValue.field (v : JSValue) (name : String) : JSValue :=
  match v with
  | .object fields => JSValue.lookup fields name
  | _ => .undefined

/-- First element of an array value, `undefined` for any other value. -/
def JSValue.first (v : JSValue) : JSValue :=
  match v with
  | .array (e :: _) => e
  | _ => .undefined

/-- Whether a value is a string with at least one character. -/
def isNonEmptyString : JSValue → Bool
  | .string s => !(s == "")
  | _ => false

namespace Bot

/-- One group of the keyword table: its triggers and its canned reply. -/
structure TriggerGroup where
  triggers : List String
  reply : String

/-- The keyword table in the order the groups are tested: greeting, well-being, help,
identity. -/
def triggerGroups : List TriggerGroup :=
  [⟨["hallo", "hi"], greetingReply⟩, ⟨["wie geht", "wie läuft"], wellBeingReply⟩,
    ⟨["hilfe", "help"], helpReply⟩, ⟨["wer bist du", "was bist du"], identityReply⟩]

/-- The reply of the first group of the table with a trigger occurring in the lowered message,
the generic reply when there is no such group. -/
def firstMatchingReply (lowered message : String) : String :=
  match triggerGroups.find? (fun g => g.triggers.any (fun t => includes lowered t)) with
  | some g => g.reply
  | none => genericReply message

/-- The value `getAIResponse` resolves with. -/
def generated (toLowerCase : String → String) (CLAUDE_API_KEY : Option String) (env : TurnEnv)
    (message : String) : JSValue :=
  if configured CLAUDE_API_KEY then
    generatedOr env.claude (.string (getSimpleResponse toLowerCase message))
  else .string (getSimpleResponse toLowerCase message)

end Bot

/-! ## Lemmas on strings -/

theorem includesList_iff (s pat : List Char) : includesList s pat = true ↔ pat <:+: s := by
  induction s with
  | nil => cases pat <;> simp [includesList]
  | cons c cs ih =>
    simp only [includesList, Bool.or_eq_true, ih, List.infix_cons_iff,
      List.isPrefixOf_iff_prefix]

theorem includes_iff (s pat : String) : includes s pat = true ↔ pat.data <:+: s.data :=
  includesList_iff _ _

theorem includes_of_infix {s p q : String} (hq : q.data <:+: p.data)
    (h : includes s p = true) : includes s q = true :=
  (includes_iff s q).2 (hq.trans ((includes_iff s p).1 h))

theorem hi_infix_hilfe : "hi".data <:+: "hilfe".data := ⟨[], ['l', 'f', 'e'], rfl⟩

theorem dropWhile_reverse_dropWhile_eq_nil (p : Char → Bool) (l : List Char) :
    (l.dropWhile p).reverse.dropWhile p = [] ↔ l.all p = true := by
  constructor
  · intro h
    have h1 : ∀ x ∈ l.dropWhile p, p x = true := by
      intro x hx
      have := (List.dropWhile_eq_nil_iff).1 h x (List.mem_reverse.2 hx)
      exact this
    have h2 : l.dropWhile p = [] := by
      cases hd : l.dropWhile p with
      | nil => rfl
      | cons a t =>
        have ha : p a = true := h1 a (by rw [hd]; exact List.mem_cons_self _ _)
        have hna := List.head_dropWhile_not p l (by rw [hd]; exact List.cons_ne_nil _ _)
        simp [hd, ha] at hna
    simpa [List.all_eq_true] using (List.dropWhile_eq_nil_iff).1 h2
  · intro h
    have h2 : l.dropWhile p = [] :=
      (List.dropWhile_eq_nil_iff).2 (by simpa [List.all_eq_true] using h)
    simp [h2]

theorem trim_eq_empty_iff (s : String) : trim s = "" ↔ s.data.all isWhiteSpace = true := by
  rw [← dropWhile_reverse_dropWhile_eq_nil]
  unfold trim
  constructor
  · intro h
    have := congrArg String.data h
    simpa using this
  · intro h
    simp [h]

namespace Bot

theorem genericReply_data (m : String) :
    (genericReply m).data.get? 4 = some 'h' := rfl

theorem genericReply_ne_help (m : String) : genericReply m ≠ helpReply := by
  intro h
  have h1 : (genericReply m).data.get? 4 = helpReply.data.get? 4 := by rw [h]
  rw [genericReply_data] at h1
  revert h1
  decide

theorem genericReply_ne_empty (m : String) : genericReply m ≠ "" := by
  intro h
  have h1 : (genericReply m).data.get? 4 = "".data.get? 4 := by rw [h]
  rw [genericReply_data] at h1
  revert h1
  decide

theorem genericReply_includes (m : String) : includes (genericReply m) m = true := by
  rw [includes_iff]
  exact ⟨"Ich habe Ihre Nachricht erhalten: \"".data,
    "\"\n\nLeider ist die KI-API momentan nicht verfügbar. Bitte versuchen Sie es später erneut oder kontaktieren Sie den Administrator.".data,
    rfl⟩

theorem getSimpleResponse_ne_empty (lower : String → String) (m : String) :
    getSimpleResponse lower m ≠ "" := by
  unfold getSimpleResponse
  simp only []
  split_ifs
  · decide
  · decide
  · decide
  · decide
  · exact genericReply_ne_empty m

theorem getAIResponse_unconfigured (lower : String → String) (key : Option String)
    (env : TurnEnv) (m : String) (h : configured key = false) :
    getAIResponse lower key env m = ⟨[], .ok (.string (getSimpleResponse lower m))⟩ := by
  unfold getAIResponse
  rw [if_neg (by simp [h])]
  rfl

/-! ## The keyword replies -/

/-- C1: for every message, `getSimpleResponse` returns the reply of the first group of the
keyword table (greeting, well-being, help, identity) that has a trigger occurring in the
lowercased message, the generic reply when no group has one; a message matching both the
greeting and the well-being group gets the greeting reply; and the message
"hallo wie geht es dir" gets the greeting reply, which is not the well-being reply. -/
theorem getSimpleResponse_first_match (lower : String → String) (m : String) :
    getSimpleResponse lower m = firstMatchingReply (lower m) m ∧
    (((includes (lower m) "hallo" || includes (lower m) "hi") = true ∧
        (includes (lower m) "wie geht" || includes (lower m) "wie läuft") = true) →
      getSimpleResponse lower m = greetingReply) ∧
    getSimpleResponse toLowerCaseLatin1 "hallo wie geht es dir"
      = "Hallo! Wie kann ich Ihnen helfen?" ∧
    getSimpleResponse toLowerCaseLatin1 "hallo wie geht es dir" ≠ wellBeingReply := by
  refine ⟨?_, ?_, by decide, by decide⟩
  · unfold getSimpleResponse firstMatchingReply triggerGroups
    simp only [List.find?, List.any, Bool.or_false]
    by_cases h1 : (includes (lower m) "hallo" || includes (lower m) "hi") = true
    · simp [h1]
    · by_cases h2 : (includes (lower m) "wie geht" || includes (lower m) "wie läuft") = true
      · simp [h1, h2]
      · by_cases h3 : (includes (lower m) "hilfe" || includes (lower m) "help") = true
        · simp [h1, h2, h3]
        · by_cases h4 :
            (includes (lower m) "wer bist du" || includes (lower m) "was bist du") = true
          · simp [h1, h2, h3, h4]
          · simp [h1, h2, h3, h4]
  · rintro ⟨h1, _⟩
    unfold getSimpleResponse
    simp only []
    rw [if_pos h1]

/-- Witness of C1: the message "hallo wie geht es dir" matches the greeting group and the
well-being group, and gets the greeting reply. -/
theorem getSimpleResponse_first_match_witness :
    ((includes (toLowerCaseLatin1 "hallo wie geht es dir") "hallo" ||
        includes (toLowerCaseLatin1 "hallo wie geht es dir") "hi") = true ∧
      (includes (toLowerCaseLatin1 "hallo wie geht es dir") "wie geht" ||
        includes (toLowerCaseLatin1 "hallo wie geht es dir") "wie läuft") = true) ∧
    getSimpleResponse toLowerCaseLatin1 "hallo wie geht es dir" = greetingReply :=
  ⟨by decide, (getSimpleResponse_first_match toLowerCaseLatin1 "hallo wie geht es dir").2.1
    (by decide)⟩

/-- C3: when `CLAUDE_API_KEY` is absent (undefined or the empty string), `getAIResponse`
performs no effect at all, so no outbound HTTP call, and resolves with exactly
`getSimpleResponse(message)`, which is one of the four canned replies or the generic reply
echoing the message. -/
theorem getAIResponse_without_credential (lower : String → String) (key : Option String)
    (env : TurnEnv) (m : String) (h : key = none ∨ key = some "") :
    (getAIResponse lower key env m).trace = [] ∧
    claudePosts (getAIResponse lower key env m).trace = [] ∧
    (getAIResponse lower key env m).result = .ok (.string (getSimpleResponse lower m)) ∧
    getSimpleResponse lower m ∈
      [greetingReply, wellBeingReply, helpReply, identityReply, genericReply m] := by
  have hk : configured key = false := by
    rcases h with h | h <;> subst h <;> rfl
  rw [getAIResponse_unconfigured lower key env m hk]
  refine ⟨rfl, rfl, rfl, ?_⟩
  unfold getSimpleResponse
  simp only []
  split_ifs <;> simp

/-- Witness of C3: no credential, message "xyz123". -/
theorem getAIResponse_without_credential_witness :
    (getAIResponse toLowerCaseLatin1 none ⟨.ok .null, .ok (), .ok (), .ok (), .ok ()⟩
        "xyz123").trace = [] ∧
    (getAIResponse toLowerCaseLatin1 none ⟨.ok .null, .ok (), .ok (), .ok (), .ok ()⟩
        "xyz123").result = .ok (.string (getSimpleResponse toLowerCaseLatin1 "xyz123")) :=
  have h := getAIResponse_without_credential toLowerCaseLatin1 none
    ⟨.ok .null, .ok (), .ok (), .ok (), .ok ()⟩ "xyz123" (Or.inl rfl)
  ⟨h.1, h.2.2.1⟩

/-- C4: for every message whose lowercased form contains none of the eight triggers,
`getSimpleResponse` returns the generic reply, so does `getAIResponse` when no credential is
configured, and that reply contains the message itself, unchanged, as a substring. -/
theorem getSimpleResponse_generic_echo (lower : String → String) (key : Option String)
    (env : TurnEnv) (m : String)
    (h : ∀ t ∈ ["hallo", "hi", "wie geht", "wie läuft", "hilfe", "help", "wer bist du",
      "was bist du"], includes (lower m) t = false)
    (hk : key = none ∨ key = some "") :
    getSimpleResponse lower m = genericReply m ∧
    (getAIResponse lower key env m).result = .ok (.string (genericReply m)) ∧
    includes (getSimpleResponse lower m) m = true ∧
    m.data <:+: (getSimpleResponse lower m).data := by
  have e : getSimpleResponse lower m = genericReply m := by
    unfold getSimpleResponse
    simp only [List.mem_cons, List.mem_singleton, forall_eq_or_imp, forall_eq] at h
    simp [h]
  have hc : configured key = false := by
    rcases hk with hk | hk <;> subst hk <;> rfl
  refine ⟨e, ?_, ?_, ?_⟩
  · rw [getAIResponse_unconfigured lower key env m hc, e]
  · rw [e]; exact genericReply_includes m
  · rw [e]; exact (includes_iff _ _).1 (genericReply_includes m)

/-- Witness of C4: the message "xyz123" with no credential configured gets a reply that
contains "xyz123". -/
theorem getSimpleResponse_generic_echo_witness :
    getSimpleResponse toLowerCaseLatin1 "xyz123" = genericReply "xyz123" ∧
    includes (getSimpleResponse toLowerCaseLatin1 "xyz123") "xyz123" = true :=
  have h := getSimpleResponse_generic_echo toLowerCaseLatin1 none
    ⟨.ok .null, .ok (), .ok (), .ok (), .ok ()⟩ "xyz123" (by decide) (Or.inl rfl)
  ⟨h.1, h.2.2.1⟩

/-- C10: every message whose lowercased form contains "hilfe" gets the greeting reply, because
it then contains "hi" and the greeting group is tested first; and the help reply is returned
if and only if the lowercased message contains "help" and none of "hallo", "hi", "wie geht",
"wie läuft". -/
theorem getSimpleResponse_hilfe_shadowed (lower : String → String) (m : String) :
    (includes (lower m) "hilfe" = true → getSimpleResponse lower m = greetingReply) ∧
    (getSimpleResponse lower m = helpReply ↔
      includes (lower m) "help" = true ∧ includes (lower m) "hallo" = false ∧
        includes (lower m) "hi" = false ∧ includes (lower m) "wie geht" = false ∧
        includes (lower m) "wie läuft" = false) := by
  have hi : includes (lower m) "hilfe" = true → includes (lower m) "hi" = true :=
    includes_of_infix hi_infix_hilfe
  constructor
  · intro h
    unfold getSimpleResponse
    simp [hi h]
  · unfold getSimpleResponse
    simp only []
    constructor
    · intro h
      split_ifs at h with h1 h2 h3 h4
      · exact absurd h (by decide)
      · exact absurd h (by decide)
      · simp only [Bool.or_eq_true, not_or, Bool.not_eq_true] at h1 h2 h3
        rcases h3 with h3 | h3
        · rw [hi h3] at h1
          exact absurd h1.2 (by decide)
        · exact ⟨h3, h1.1, h1.2, h2.1, h2.2⟩
      · exact absurd h (by decide)
      · exact absurd h (genericReply_ne_help m)
    · rintro ⟨h0, h1, h2, h3, h4⟩
      simp [h0, h1, h2, h3, h4]

/-- Witness of C10: the message "Hilfe" contains "hilfe" once lowercased and gets the greeting
reply, not the help reply. -/
theorem getSimpleResponse_hilfe_shadowed_witness :
    includes (toLowerCaseLatin1 "Hilfe") "hilfe" = true ∧
    getSimpleResponse toLowerCaseLatin1 "Hilfe" = greetingReply :=
  ⟨by decide, (getSimpleResponse_hilfe_shadowed toLowerCaseLatin1 "Hilfe").1 (by decide)⟩

end Bot


theorem sentActivities_append (a b : List Effect) :
    sentActivities (a ++ b) = sentActivities a ++ sentActivities b :=
  List.filterMap_append _ _ _

theorem claudePosts_append (a b : List Effect) :
    claudePosts (a ++ b) = claudePosts a ++ claudePosts b :=
  List.filterMap_append _ _ _

theorem webhookPosts_append (a b : List Effect) :
    webhookPosts (a ++ b) = webhookPosts a ++ webhookPosts b :=
  List.filterMap_append _ _ _

theorem responses_append (a b : List Effect) :
    responses (a ++ b) = responses a ++ responses b :=
  List.filterMap_append _ _ _

theorem logged_append (a b : List Effect) : logged (a ++ b) = logged a ++ logged b :=
  List.filterMap_append _ _ _

theorem nextCalls_append (a b : List Effect) : nextCalls (a ++ b) = nextCalls a + nextCalls b :=
  List.countP_append _ _ _

theorem Run.bind_eq {α β : Type} (r : Run α) (f : α → Run β) :
    (r >>= f) = Run.andThen r f := rfl

theorem Run.pure_eq {α : Type} (a : α) : (pure a : Run α) = Run.ret a := rfl

namespace Relay

theorem callClaudeAPI_result (env : RequestEnv) (message : JSValue) :
    (callClaudeAPI env message).result = .ok (generatedOr env.claude (.string failureText)) := by
  unfold callClaudeAPI generatedOr
  cases h : env.claude with
  | error e =>
    simp [Run.tryCatch, Run.bind_eq, Run.pure_eq, Run.andThen, Run.await, Run.emit, Run.ret, h]
  | ok data =>
    cases h2 : firstText data <;>
    simp [Run.tryCatch, Run.bind_eq, Run.pure_eq, Run.andThen, Run.await, Run.emit, Run.ret,
      Run.lift, h, h2]

theorem callClaudeAPI_observed (env : RequestEnv) (message : JSValue) :
    claudePosts (callClaudeAPI env message).trace = [claudeRequest message] ∧
    webhookPosts (callClaudeAPI env message).trace = [] ∧
    responses (callClaudeAPI env message).trace = [] := by
  unfold callClaudeAPI
  cases h : env.claude with
  | error e =>
    simp [Run.tryCatch, Run.bind_eq, Run.pure_eq, Run.andThen, Run.await, Run.emit, Run.ret, h,
      claudePosts, webhookPosts, responses]
  | ok data =>
    cases h2 : firstText data <;>
    simp [Run.tryCatch, Run.bind_eq, Run.pure_eq, Run.andThen, Run.await, Run.emit, Run.ret,
      Run.lift, h, h2, claudePosts, webhookPosts, responses]

theorem sendToTeams_result (cfg : Config) (env : RequestEnv) (t : String) :
    (sendToTeams cfg env t).result = .ok () := by
  unfold sendToTeams
  cases cfg.TEAMS_WEBHOOK_URL with
  | none => rfl
  | some url =>
    by_cases hu : url = ""
    · simp [hu, Run.emit]
    · cases h : env.webhook <;>
      simp [hu, Run.tryCatch, Run.bind_eq, Run.andThen, Run.await, Run.emit, h]

theorem sendToTeams_observed (cfg : Config) (env : RequestEnv) (t : String) :
    webhookPosts (sendToTeams cfg env t).trace
      = (match cfg.TEAMS_WEBHOOK_URL with
        | none => []
        | some url => if url = "" then [] else [(url, messageCard t)]) ∧
    claudePosts (sendToTeams cfg env t).trace = [] ∧
    responses (sendToTeams cfg env t).trace = [] := by
  unfold sendToTeams
  cases cfg.TEAMS_WEBHOOK_URL with
  | none => simp [Run.emit, webhookPosts, claudePosts, responses]
  | some url =>
    by_cases hu : url = ""
    · simp [hu, Run.emit, webhookPosts, claudePosts, responses]
    · cases h : env.webhook <;>
      simp [hu, Run.tryCatch, Run.bind_eq, Run.andThen, Run.await, Run.emit, h, webhookPosts,
        claudePosts, responses]

theorem serialisable_of_isPrimitive (d : Nat) (v : JSValue) (h : v.isPrimitive = true) :
    v.serialisable d = true := by
  cases v <;> cases d <;> simp_all [JSValue.isPrimitive, JSValue.serialisable]

theorem send_of_string (engine : Engine) (cfg : Config) (env : RequestEnv) (body : JSValue)
    (m g : String) (hb : body.get .message = .ok (.string m)) (hm : m ≠ "")
    (hp : (generatedOr env.claude (.string failureText)).isPrimitive = true)
    (hg : (generatedOr env.claude (.string failureText)).toStr engine.joinDepth = .ok g) :
    (send engine cfg env body).trace
      = .console "Nachricht erhalten:" (.string m) :: ((callClaudeAPI env (.string m)).trace
        ++ ((sendToTeams cfg env ("**Frage:** " ++ m ++ "\n\n**Claude:** " ++ g)).trace
        ++ [.respond 200 (successBody (generatedOr env.claude (.string failureText)))])) ∧
    (send engine cfg env body).result = .ok () := by
  have hs := serialisable_of_isPrimitive engine.stringifyDepth _ hp
  unfold send
  simp [Run.tryCatch, Run.bind_eq, Run.andThen, Run.lift, Run.emit, hb, JSValue.truthy, hm,
    callClaudeAPI_result, sendToTeams_result, templateString, JSValue.toStr, hg, hs]

theorem send_observed (engine : Engine) (cfg : Config) (env : RequestEnv) (body : JSValue)
    (m g : String) (hb : body.get .message = .ok (.string m)) (hm : m ≠ "")
    (hp : (generatedOr env.claude (.string failureText)).isPrimitive = true)
    (hg : (generatedOr env.claude (.string failureText)).toStr engine.joinDepth = .ok g) :
    webhookPosts (send engine cfg env body).trace
      = (match cfg.TEAMS_WEBHOOK_URL with
        | none => []
        | some url => if url = "" then []
          else [(url, messageCard ("**Frage:** " ++ m ++ "\n\n**Claude:** " ++ g))]) ∧
    claudePosts (send engine cfg env body).trace = [claudeRequest (.string m)] ∧
    responses (send engine cfg env body).trace
      = [(200, successBody (generatedOr env.claude (.string failureText)))] := by
  have hw := sendToTeams_observed cfg env ("**Frage:** " ++ m ++ "\n\n**Claude:** " ++ g)
  have hc := callClaudeAPI_observed env (.string m)
  rw [(send_of_string engine cfg env body m g hb hm hp hg).1, ← List.singleton_append]
  refine ⟨?_, ?_, ?_⟩
  · rw [webhookPosts_append, webhookPosts_append, webhookPosts_append, hw.1, hc.2.1]
    simp [webhookPosts]
  · rw [claudePosts_append, claudePosts_append, claudePosts_append, hw.2.1, hc.1]
    simp [claudePosts]
  · rw [responses_append, responses_append, responses_append, hw.2.2, hc.2.2]
    simp [responses]

/-! ## The relay endpoint -/

/-- C5, as amended: for every request body whose `message` property is missing or falsy
(`undefined`, `null`, `false`, `0`, the empty string), `POST /send` answers 400 with a JSON
body carrying an error string and does nothing else: no call to the vendor, no webhook POST.
(No trimming takes place.) -/
theorem send_rejects_missing_message (engine : Engine) (cfg : Config) (env : RequestEnv)
    (body v : JSValue) (hb : body.get .message = .ok v) (hv : v.truthy = false) :
    send engine cfg env body
      = ⟨[.respond 400 (.object [("error", .string "Nachricht ist erforderlich")])], .ok ()⟩ ∧
    responses (send engine cfg env body).trace
      = [(400, .object [("error", .string "Nachricht ist erforderlich")])] ∧
    claudePosts (send engine cfg env body).trace = [] ∧
    webhookPosts (send engine cfg env body).trace = [] := by
  have e : send engine cfg env body
      = ⟨[.respond 400 (.object [("error", .string "Nachricht ist erforderlich")])], .ok ()⟩ := by
    unfold send
    simp [Run.tryCatch, Run.bind_eq, Run.andThen, Run.lift, Run.emit, hb, hv]
  rw [e]
  exact ⟨rfl, rfl, rfl, rfl⟩

/-- Witness of C5: a body without a `message` property. -/
theorem send_rejects_missing_message_witness :
    send ⟨1000, 1000⟩ ⟨some "key", some "https://example.test/hook"⟩ ⟨.ok .null, .ok ()⟩
        (.object [])
      = ⟨[.respond 400 (.object [("error", .string "Nachricht ist erforderlich")])], .ok ()⟩ :=
  (send_rejects_missing_message ⟨1000, 1000⟩ ⟨some "key", some "https://example.test/hook"⟩
    ⟨.ok .null, .ok ()⟩ (.object []) .undefined rfl rfl).1

/-- Counterexample to C5 as stated: the message of three blanks is empty after trimming, yet
the handler calls the vendor, posts to the webhook and answers 200. -/
theorem send_accepts_whitespace_message :
    trim "   " = "" ∧
    claudePosts (send ⟨1000, 1000⟩ ⟨some "key", some "https://example.test/hook"⟩
        ⟨.error ⟨"timeout of 30000ms exceeded", .undefined⟩, .ok ()⟩
        (.object [("message", .string "   ")])).trace = [claudeRequest (.string "   ")] ∧
    webhookPosts (send ⟨1000, 1000⟩ ⟨some "key", some "https://example.test/hook"⟩
        ⟨.error ⟨"timeout of 30000ms exceeded", .undefined⟩, .ok ()⟩
        (.object [("message", .string "   ")])).trace
      = [("https://example.test/hook",
          messageCard ("**Frage:** " ++ "   " ++ "\n\n**Claude:** " ++ failureText))] ∧
    responses (send ⟨1000, 1000⟩ ⟨some "key", some "https://example.test/hook"⟩
        ⟨.error ⟨"timeout of 30000ms exceeded", .undefined⟩, .ok ()⟩
        (.object [("message", .string "   ")])).trace
      = [(200, successBody (.string failureText))] :=
  ⟨by decide, rfl, rfl, rfl⟩

/-- C6, as amended: with a webhook URL configured, for every non-empty message string and
every outcome of the vendor call whose generated value is a primitive (a string, which the
template literal converts to itself, or `undefined`, `null`, a boolean or a number) with
converted text `g`, on every engine, the webhook receives exactly one POST; the text of the
first section of its card equals "**Frage:** " + message + "\n\n**Claude:** " + g, so it
contains the message and the generated answer unchanged, with markdown set to true; the vendor
is called exactly once; and the caller gets status 200 with success true. -/
theorem send_posts_one_card (engine : Engine) (cfg : Config) (env : RequestEnv)
    (body : JSValue) (m url g : String) (hb : body.get .message = .ok (.string m))
    (hm : m ≠ "") (hu : cfg.TEAMS_WEBHOOK_URL = some url) (hne : url ≠ "")
    (hp : (generatedOr env.claude (.string failureText)).isPrimitive = true)
    (hg : (generatedOr env.claude (.string failureText)).toStr engine.joinDepth = .ok g) :
    webhookPosts (send engine cfg env body).trace
      = [(url, messageCard ("**Frage:** " ++ m ++ "\n\n**Claude:** " ++ g))] ∧
    ((messageCard ("**Frage:** " ++ m ++ "\n\n**Claude:** " ++ g)).field "sections").first.field
        "text" = .string ("**Frage:** " ++ m ++ "\n\n**Claude:** " ++ g) ∧
    ((messageCard ("**Frage:** " ++ m ++ "\n\n**Claude:** " ++ g)).field "sections").first.field
        "markdown" = .bool true ∧
    includes ("**Frage:** " ++ m ++ "\n\n**Claude:** " ++ g) m = true ∧
    includes ("**Frage:** " ++ m ++ "\n\n**Claude:** " ++ g) g = true ∧
    claudePosts (send engine cfg env body).trace = [claudeRequest (.string m)] ∧
    responses (send engine cfg env body).trace
      = [(200, successBody (generatedOr env.claude (.string failureText)))] ∧
    (successBody (generatedOr env.claude (.string failureText))).field "success" = .bool true ∧
    (send engine cfg env body).result = .ok () ∧
    (∀ t, generatedOr env.claude (.string failureText) = .string t → g = t) := by
  have ho := send_observed engine cfg env body m g hb hm hp hg
  refine ⟨?_, rfl, rfl, ?_, ?_, ho.2.1, ho.2.2, rfl,
    (send_of_string engine cfg env body m g hb hm hp hg).2, ?_⟩
  · rw [ho.1, hu]
    simp [hne]
  · exact (includes_iff _ _).2 ⟨"**Frage:** ".data, ("\n\n**Claude:** " ++ g).data, by simp⟩
  · exact (includes_iff _ _).2 ⟨("**Frage:** " ++ m ++ "\n\n**Claude:** ").data, [], by simp⟩
  · intro t ht
    rw [ht] at hg
    simpa [JSValue.toStr] using hg.symm

/-- Witness of C6: the message "hi", answered by the vendor with the text "Hallo!". -/
theorem send_posts_one_card_witness :
    webhookPosts (send ⟨1000, 1000⟩ ⟨some "key", some "https://example.test/hook"⟩
        ⟨.ok (.object [("content", .array [.object [("type", .string "text"),
          ("text", .string "Hallo!")]])]), .ok ()⟩ (.object [("message", .string "hi")])).trace
      = [("https://example.test/hook", messageCard "**Frage:** hi\n\n**Claude:** Hallo!")] :=
  (send_posts_one_card ⟨1000, 1000⟩ ⟨some "key", some "https://example.test/hook"⟩
    ⟨.ok (.object [("content", .array [.object [("type", .string "text"),
      ("text", .string "Hallo!")]])]), .ok ()⟩ (.object [("message", .string "hi")])
    "hi" "https://example.test/hook" "Hallo!" rfl (by decide) rfl (by decide) rfl rfl).1

/-- Counterexample to C6 as stated: the vendor answers 2xx with a first content element whose
`text` is an object carrying its own `toString` property; the template literal throws, the
webhook receives no POST and the caller gets status 500. -/
theorem send_unprintable_answer_configured :
    webhookPosts (send ⟨1000, 1000⟩ ⟨some "key", some "https://example.test/hook"⟩
        ⟨.ok (.object [("content", .array [.object [("text",
          .object [("toString", .number "1")])]])]), .ok ()⟩
        (.object [("message", .string "hi")])).trace = [] ∧
    responses (send ⟨1000, 1000⟩ ⟨some "key", some "https://example.test/hook"⟩
        ⟨.ok (.object [("content", .array [.object [("text",
          .object [("toString", .number "1")])]])]), .ok ()⟩
        (.object [("message", .string "hi")])).trace
      = [(500, .object [("error", .string "Interner Serverfehler")])] :=
  ⟨rfl, rfl⟩

/-- C7, as amended: for every non-empty message string and every outcome of the vendor call
whose generated value is a primitive (a string, `undefined`, `null`, a boolean or a number),
on every engine, the caller gets exactly one answer, status 200 with success true and a
`response` property equal to the value the Response Generator returned, whatever the webhook
does (so also when the webhook POST fails); when no webhook URL is configured no webhook POST
is made; and when the vendor call failed the `response` is the generic failure string. -/
theorem send_reports_success (engine : Engine) (cfg : Config) (env : RequestEnv)
    (body : JSValue) (m g : String) (hb : body.get .message = .ok (.string m)) (hm : m ≠ "")
    (hp : (generatedOr env.claude (.string failureText)).isPrimitive = true)
    (hg : (generatedOr env.claude (.string failureText)).toStr engine.joinDepth = .ok g) :
    (configured cfg.TEAMS_WEBHOOK_URL = false →
      webhookPosts (send engine cfg env body).trace = []) ∧
    responses (send engine cfg env body).trace
      = [(200, successBody (generatedOr env.claude (.string failureText)))] ∧
    (successBody (generatedOr env.claude (.string failureText))).field "success" = .bool true ∧
    (successBody (generatedOr env.claude (.string failureText))).field "response"
      = generatedOr env.claude (.string failureText) ∧
    (send engine cfg env body).result = .ok () ∧
    (∀ e, env.claude = .error e → responses (send engine cfg env body).trace
      = [(200, successBody (.string failureText))]) := by
  have ho := send_observed engine cfg env body m g hb hm hp hg
  refine ⟨?_, ho.2.2, rfl, rfl, (send_of_string engine cfg env body m g hb hm hp hg).2, ?_⟩
  · intro hc
    rw [ho.1]
    cases hu : cfg.TEAMS_WEBHOOK_URL with
    | none => rfl
    | some url =>
      rw [hu] at hc
      have : url = "" := by simpa [configured] using hc
      simp [this]
  · intro e he
    rw [ho.2.2, he]
    rfl

/-- Witness of C7: no webhook URL configured, the vendor call times out, message "hi". -/
theorem send_reports_success_witness :
    webhookPosts (send ⟨1000, 1000⟩ ⟨some "key", none⟩
        ⟨.error ⟨"timeout of 30000ms exceeded", .undefined⟩, .ok ()⟩
        (.object [("message", .string "hi")])).trace = [] ∧
    responses (send ⟨1000, 1000⟩ ⟨some "key", none⟩
        ⟨.error ⟨"timeout of 30000ms exceeded", .undefined⟩, .ok ()⟩
        (.object [("message", .string "hi")])).trace
      = [(200, successBody (.string failureText))] :=
  have h := send_reports_success ⟨1000, 1000⟩ ⟨some "key", none⟩
    ⟨.error ⟨"timeout of 30000ms exceeded", .undefined⟩, .ok ()⟩
    (.object [("message", .string "hi")]) "hi" failureText rfl (by decide) rfl rfl
  ⟨h.1 rfl, h.2.1⟩

/-- Counterexample to C7 as stated: no webhook URL configured, message "hi", and the vendor
answers 2xx with a first content element whose `text` is an object carrying its own `toString`
property; the caller gets status 500, not 200. -/
theorem send_unprintable_answer_unconfigured :
    responses (send ⟨1000, 1000⟩ ⟨some "key", none⟩
        ⟨.ok (.object [("content", .array [.object [("text",
          .object [("toString", .number "1")])]])]), .ok ()⟩
        (.object [("message", .string "hi")])).trace
      = [(500, .object [("error", .string "Interner Serverfehler")])] :=
  rfl

end Relay

namespace Bot

theorem getAIResponse_result (lower : String → String) (key : Option String) (env : TurnEnv)
    (m : String) : (getAIResponse lower key env m).result = .ok (generated lower key env m) := by
  unfold getAIResponse generated generatedOr callClaudeAPI
  by_cases hk : configured key = true
  · cases h : env.claude with
    | error e =>
      simp [hk, Run.tryCatch, Run.bind_eq, Run.pure_eq, Run.andThen, Run.await, Run.emit,
        Run.ret, h]
    | ok data =>
      cases h2 : firstText data <;>
      simp [hk, Run.tryCatch, Run.bind_eq, Run.pure_eq, Run.andThen, Run.await, Run.emit,
        Run.ret, Run.lift, h, h2]
  · simp [hk, Run.pure_eq, Run.ret]

theorem getAIResponse_observed (lower : String → String) (key : Option String) (env : TurnEnv)
    (m : String) :
    sentActivities (getAIResponse lower key env m).trace = [] ∧
    nextCalls (getAIResponse lower key env m).trace = 0 ∧
    claudePosts (getAIResponse lower key env m).trace
      = (if configured key then [claudeRequest (.string m)] else []) ∧
    ∀ t ∈ logged (getAIResponse lower key env m).trace, ∃ d, t = "Claude API Fehler: " ++ d := by
  unfold getAIResponse callClaudeAPI
  by_cases hk : configured key = true
  · cases h : env.claude with
    | error e =>
      simp [hk, Run.tryCatch, Run.bind_eq, Run.pure_eq, Run.andThen, Run.await, Run.emit,
        Run.ret, h, sentActivities, nextCalls, claudePosts, logged]
    | ok data =>
      cases h2 : firstText data <;>
      simp [hk, Run.tryCatch, Run.bind_eq, Run.pure_eq, Run.andThen, Run.await, Run.emit,
        Run.ret, Run.lift, h, h2, sentActivities, nextCalls, claudePosts, logged]
  · simp [hk, Run.pure_eq, Run.ret, sentActivities, nextCalls, claudePosts, logged]

theorem onMessage_of_text (lower : String → String) (key : Option String) (env : TurnEnv)
    (t : String) (hne : trim t ≠ "") :
    (onMessage lower key env (some t)).trace
      = [.log ("Nachricht erhalten: " ++ trim t), .sendActivity typingActivity]
        ++ (match env.typingSend with
          | .ok _ => []
          | .error typingError => [.log ("Typing-Indikator Fehler: " ++ typingError.message)])
        ++ (getAIResponse lower key env (trim t)).trace
        ++ [.sendActivity (generated lower key env (trim t))]
        ++ (match env.replySend with
          | .ok _ => [.log "Antwort gesendet", .next]
          | .error error =>
            [.log ("AI-Antwort Fehler: " ++ error.message), .sendActivity (.string apologyText)]
              ++ (match env.apologySend with
                | .ok _ => [.next]
                | .error _ => [])) ∧
    (onMessage lower key env (some t)).result
      = (match env.replySend with
        | .ok _ => .ok ()
        | .error _ => env.apologySend) := by
  unfold onMessage
  cases h1 : env.typingSend <;> cases h2 : env.replySend <;> cases h3 : env.apologySend <;>
  simp [hne, Run.tryCatch, Run.bind_eq, Run.andThen, Run.await, Run.emit, h1, h2, h3,
    getAIResponse_result]

/-! ## The message handler of the bot -/

/-- C8, as amended: for every non-empty message, if sending the generated reply through
`context.sendActivity` fails, the handler logs the failure and makes exactly one further send
attempt, the apology message; the activities sent are the typing indicator, the generated
reply and the apology, in this order. The handler completes as the apology send does: when
that send succeeds it does not raise and calls `next()` once, when it fails too its error is
raised out of the handler and `next()` is not called. -/
theorem onMessage_reply_send_fails (lower : String → String) (key : Option String)
    (env : TurnEnv) (t : String) (e : JSError) (hne : trim t ≠ "")
    (hr : env.replySend = .error e) :
    ("AI-Antwort Fehler: " ++ e.message) ∈ logged (onMessage lower key env (some t)).trace ∧
    sentActivities (onMessage lower key env (some t)).trace
      = [typingActivity, generated lower key env (trim t), .string apologyText] ∧
    (onMessage lower key env (some t)).result = env.apologySend ∧
    nextCalls (onMessage lower key env (some t)).trace
      = (match env.apologySend with
        | .ok _ => 1
        | .error _ => 0) := by
  have ho := getAIResponse_observed lower key env (trim t)
  obtain ⟨htr, hres⟩ := onMessage_of_text lower key env t hne
  rw [hr] at htr hres
  rw [htr]
  refine ⟨?_, ?_, hres, ?_⟩
  · simp only [logged_append, List.mem_append]
    right
    simp [logged]
  · simp only [sentActivities_append, ho.1]
    cases env.typingSend <;> cases env.apologySend <;> simp [sentActivities]
  · simp only [nextCalls_append, ho.2.1]
    cases env.typingSend <;> cases env.apologySend <;> simp [nextCalls]

/-- Witness of C8: message "hi", no credential, the reply cannot be sent, the apology can. -/
theorem onMessage_reply_send_fails_witness :
    sentActivities (onMessage toLowerCaseLatin1 none
        ⟨.ok .null, .ok (), .ok (), .error ⟨"send failed", .undefined⟩, .ok ()⟩ (some "hi")).trace
      = [typingActivity, generated toLowerCaseLatin1 none
          ⟨.ok .null, .ok (), .ok (), .error ⟨"send failed", .undefined⟩, .ok ()⟩ (trim "hi"),
        .string apologyText] :=
  (onMessage_reply_send_fails toLowerCaseLatin1 none
    ⟨.ok .null, .ok (), .ok (), .error ⟨"send failed", .undefined⟩, .ok ()⟩ "hi"
    ⟨"send failed", .undefined⟩ (by decide) rfl).2.1

/-- Counterexample to C8 as stated: message "hi", no credential, the reply cannot be sent.
The handler makes a further send attempt, the apology; and when the apology cannot be sent
either, the error is raised out of the handler and `next()` is never called. -/
theorem onMessage_sends_apology :
    sentActivities (onMessage toLowerCaseLatin1 none
        ⟨.ok .null, .ok (), .ok (), .error ⟨"send failed", .undefined⟩, .ok ()⟩ (some "hi")).trace
      = [typingActivity, .string greetingReply, .string apologyText] ∧
    (onMessage toLowerCaseLatin1 none
        ⟨.ok .null, .ok (), .ok (), .error ⟨"send failed", .undefined⟩,
          .error ⟨"send failed again", .undefined⟩⟩ (some "hi")).result
      = .error ⟨"send failed again", .undefined⟩ ∧
    nextCalls (onMessage toLowerCaseLatin1 none
        ⟨.ok .null, .ok (), .ok (), .error ⟨"send failed", .undefined⟩,
          .error ⟨"send failed again", .undefined⟩⟩ (some "hi")).trace = 0 :=
  ⟨rfl, rfl, rfl⟩

/-- C9: for every activity whose text is missing, empty or made of white space only, the
handler sends exactly one activity, the prompt "Bitte senden Sie eine Textnachricht.", and
then only calls `next()`: no typing indicator, no call of `getAIResponse`, no POST to the
vendor, nothing logged. -/
theorem onMessage_empty_text (lower : String → String) (key : Option String) (env : TurnEnv)
    (text : Option String)
    (h : text = none ∨ ∃ t, text = some t ∧ t.data.all isWhiteSpace = true) :
    sentActivities (onMessage lower key env text).trace
      = [.string "Bitte senden Sie eine Textnachricht."] ∧
    claudePosts (onMessage lower key env text).trace = [] ∧
    logged (onMessage lower key env text).trace = [] ∧
    (onMessage lower key env text).trace
      = .sendActivity (.string promptText) :: (match env.promptSend with
        | .ok _ => [.next]
        | .error _ => []) ∧
    (onMessage lower key env text).result = env.promptSend := by
  have hu : (text.map trim).getD "" = "" := by
    rcases h with h | ⟨t, h, hw⟩
    · subst h; rfl
    · subst h
      exact (trim_eq_empty_iff t).2 hw
  unfold onMessage
  cases hp : env.promptSend <;>
  simp [hu, Run.bind_eq, Run.andThen, Run.await, Run.emit, hp, sentActivities, claudePosts,
    logged, promptText]

/-- Witness of C9: a text of a blank, a tab and a line feed. -/
theorem onMessage_empty_text_witness :
    sentActivities (onMessage toLowerCaseLatin1 (some "key")
        ⟨.ok .null, .ok (), .ok (), .ok (), .ok ()⟩ (some " \t\n")).trace
      = [.string "Bitte senden Sie eine Textnachricht."] :=
  (onMessage_empty_text toLowerCaseLatin1 (some "key")
    ⟨.ok .null, .ok (), .ok (), .ok (), .ok ()⟩ (some " \t\n")
    (Or.inr ⟨" \t\n", rfl, by decide⟩)).1

end Bot

/-! ## The Response Generator -/

/-- C2, as amended: in either variant, for every message string and every outcome of the
vendor call, the Response Generator (bot: `getAIResponse`; relay: `callClaudeAPI`) completes
without throwing. On a failure (the POST rejects, or reading `response.data.content[0].text`
throws) it returns its fallback, a non-empty string: the keyword or generic reply in the bot,
the fixed failure text in the relay. On a 2xx answer from which the text can be read it
returns the value read, unchanged, whatever that value is. -/
theorem responseGenerator_never_throws (lower : String → String) (key : Option String)
    (env : Bot.TurnEnv) (renv : Relay.RequestEnv) (m : String) :
    (Bot.getAIResponse lower key env m).result
      = .ok (if configured key then
          generatedOr env.claude (.string (Bot.getSimpleResponse lower m))
        else .string (Bot.getSimpleResponse lower m)) ∧
    (Relay.callClaudeAPI renv (.string m)).result
      = .ok (generatedOr renv.claude (.string Relay.failureText)) ∧
    isNonEmptyString (.string (Bot.getSimpleResponse lower m)) = true ∧
    isNonEmptyString (.string Relay.failureText) = true ∧
    (∀ fallback e, generatedOr (.error e) fallback = fallback) ∧
    (∀ fallback data,
      generatedOr (.ok data) fallback
        = (match firstText data with
          | .ok v => v
          | .error _ => fallback)) := by
  refine ⟨Bot.getAIResponse_result lower key env m, Relay.callClaudeAPI_result renv _, ?_,
    by decide, fun _ _ => rfl, fun _ _ => rfl⟩
  simpa [isNonEmptyString] using Bot.getSimpleResponse_ne_empty lower m

/-- Counterexample to C2 as stated: the vendor answers 2xx with an empty text, and with a
first content element that has no `text`; both variants return the empty string in the first
case and `undefined` in the second, neither of which is a non-empty string. -/
theorem responseGenerator_returns_empty :
    (Bot.getAIResponse toLowerCaseLatin1 (some "key")
        ⟨.ok (.object [("content", .array [.object [("type", .string "text"),
          ("text", .string "")]])]), .ok (), .ok (), .ok (), .ok ()⟩ "hi").result
      = .ok (.string "") ∧
    (Relay.callClaudeAPI
        ⟨.ok (.object [("content", .array [.object [("type", .string "text"),
          ("text", .string "")]])]), .ok ()⟩ (.string "hi")).result = .ok (.string "") ∧
    (Bot.getAIResponse toLowerCaseLatin1 (some "key")
        ⟨.ok (.object [("content", .array [.object [("type", .string "text")]])]),
          .ok (), .ok (), .ok (), .ok ()⟩ "hi").result = .ok .undefined ∧
    (Relay.callClaudeAPI
        ⟨.ok (.object [("content", .array [.object [("type", .string "text")]])]), .ok ()⟩
        (.string "hi")).result = .ok .undefined ∧
    isNonEmptyString (.string "") = false ∧ isNonEmptyString .undefined = false :=
  ⟨rfl, rfl, rfl, rfl, rfl, rfl⟩

end Teamsbot
